import Mathlib

/-
Shallow embedding of the in-browser shell component of `react-xterm`
(the TerminalComponent in the repository's main source file): its
line-editor / command-history state machine, the display writes it
emits, the command-dispatch callback, the mount-time initialization
dispatch, and the unmount guard.
-/

namespace ReactXterm

/-- Display output events emitted to the terminal surface (xterm).
`write` is `term.write`, `writeln` is `term.writeln`, `clearLine` is the
cursor-reposition + erase-to-end-of-line sequence of `clearCurrentLine`,
`clearScreen` is `term.clear()`, `prompt` is `writePrompt` (a line break
followed by the prompt string), `focus` is `term.focus()`. -/
inductive Out where
  | write (s : String)
  | writeln (s : String)
  | clearLine
  | clearScreen
  | prompt
  | focus
deriving DecidableEq, BEq

/-- Whitespace as recognized by JavaScript `String.prototype.trim`
(restricted to the ASCII whitespace characters that can occur here). -/
def isWS (c : Char) : Bool :=
  c == ' ' || c == '\t' || c == '\n' || c == '\r'

/-- Drop leading whitespace characters. -/
def dropLeadingWS : List Char → List Char
  | [] => []
  | c :: cs => if isWS c then dropLeadingWS cs else c :: cs

/-- Embedding of JavaScript `String.prototype.trim` (used on
`currentLineData` in the Enter branch). -/
def jsTrim (s : String) : String :=
  ⟨(dropLeadingWS (dropLeadingWS s.data.reverse).reverse)⟩

/-- Embedding of JavaScript `.slice(0, -1)` on a string: drop the last
character (identity on the empty string). -/
def popLast (s : String) : String :=
  ⟨s.data.dropLast⟩

/-- The prompt template `'[root@server] $ '` of the component
(`terminalTitleTemplate`); it contains no ANSI escapes. -/
def terminalTitleTemplate : String := "[root@server] $ "

/-- `visiblePrompt`: the template with ANSI escape sequences stripped;
the template contains none, so the strip is the identity. -/
def visiblePrompt : String := terminalTitleTemplate

/-- `promptLength` as computed in the onData handler. -/
def promptLength : Nat := visiblePrompt.length

/-- The mutable refs of one mounted shell component that the onData
handler reads and writes, plus `displayLine`, the text rendered after
the prompt on the current line (the display surface's current line
suffix, used to model `term.buffer.active.cursorX`). -/
structure ShellState where
  historyLineData : List String
  currentLineData : String
  lastCommandIndex : Nat
  displayLine : String
deriving DecidableEq

/-- The display cursor column `term.buffer.active.cursorX`: the prompt
occupies the first `promptLength` columns, the typed line follows. -/
def ShellState.cursorX (s : ShellState) : Nat :=
  promptLength + s.displayLine.length

/-- Input events of the onData handler: `charCodeAt(0) === 13` (Enter),
`charCodeAt(0) === 127` (Backspace/Delete), the Up and Down arrow escape
sequences, and the default branch for any other key chunk. -/
inductive Key where
  | enter
  | backspace
  | up
  | down
  | other (k : String)

/-- Result of one onData invocation: the new ref state, the ordered
display writes, and the `param` handed to the external `dispatch`
function (through `runJob`), if any. -/
structure StepResult where
  state : ShellState
  outs : List Out
  dispatched : Option String
deriving DecidableEq

/-- One invocation of the `term.onData` handler on a mounted component.
`hasDispatch` records whether the `dispatch` prop is configured.
Mirrors the source branch by branch:
Enter trims, pushes non-empty commands and sets
`lastCommandIndex = historyLineData.length`, clears on `"clear"`, then
either calls `runJob` (which dispatches non-empty commands and writes
the prompt otherwise) or writes the prompt, and resets the buffer;
Backspace is guarded by `cursorX > promptLength` and drops the last
character (`slice(0, -1)`) while emitting `'\b \b'`;
Up, when history is non-empty and the index positive, clears the line,
decrements, recalls `history[idx % len] || ''` and writes it;
Down, when the index is below the length, clears the line, increments,
recalls `history[(idx - 1) % len] || ''`, writes it, and afterwards
resets the buffer to empty when the index reached the length;
any other key is appended to the buffer and echoed. -/
def step (hasDispatch : Bool) (s : ShellState) (k : Key) : StepResult :=
  match k with
  | .enter =>
      let cmd := jsTrim s.currentLineData
      let hist := if cmd = "" then s.historyLineData else s.historyLineData ++ [cmd]
      let idx := if cmd = "" then s.lastCommandIndex else hist.length
      let clearOuts := if cmd = "clear" then [Out.clearScreen] else []
      if hasDispatch ∧ cmd ≠ "" then
        { state := { historyLineData := hist, currentLineData := "",
                     lastCommandIndex := idx, displayLine := s.displayLine },
          outs := clearOuts, dispatched := some cmd }
      else
        { state := { historyLineData := hist, currentLineData := "",
                     lastCommandIndex := idx, displayLine := "" },
          outs := clearOuts ++ [Out.prompt], dispatched := none }
  | .backspace =>
      if promptLength < s.cursorX then
        { state := { s with currentLineData := popLast s.currentLineData,
                            displayLine := popLast s.displayLine },
          outs := [Out.write "\x08 \x08"], dispatched := none }
      else
        { state := s, outs := [], dispatched := none }
  | .up =>
      if 0 < s.historyLineData.length ∧ 0 < s.lastCommandIndex then
        let idx := s.lastCommandIndex - 1
        let v := s.historyLineData.getD (idx % s.historyLineData.length) ""
        { state := { s with currentLineData := v, lastCommandIndex := idx,
                            displayLine := v },
          outs := [Out.clearLine, Out.write v], dispatched := none }
      else
        { state := s, outs := [], dispatched := none }
  | .down =>
      if 0 < s.historyLineData.length ∧ s.lastCommandIndex < s.historyLineData.length then
        let idx := s.lastCommandIndex + 1
        let v := s.historyLineData.getD ((idx - 1) % s.historyLineData.length) ""
        let buf := if idx = s.historyLineData.length then "" else v
        { state := { s with currentLineData := buf, lastCommandIndex := idx,
                            displayLine := v },
          outs := [Out.clearLine, Out.write v], dispatched := none }
      else
        { state := s, outs := [], dispatched := none }
  | .other k =>
      { state := { s with currentLineData := s.currentLineData ++ k,
                          displayLine := s.displayLine ++ k },
        outs := [Out.write k], dispatched := none }

/-- The ref state of a freshly mounted component: empty history, empty
buffer, index 0, nothing typed after the prompt. -/
def initState : ShellState :=
  { historyLineData := [], currentLineData := "", lastCommandIndex := 0,
    displayLine := "" }

/-- Fold a sequence of input events through the onData handler. -/
def runKeys (hasDispatch : Bool) (s : ShellState) (ks : List Key) : ShellState :=
  ks.foldl (fun st k => (step hasDispatch st k).state) s

/-- The asynchronous response shape consumed by the `runJob` dispatch
callback: `res.data.taskListStr` (an array of lines) and
`res.data.errorData`. -/
structure JobResult where
  taskListStr : Option (List String)
  errorData : Option String
deriving DecidableEq

/-- The display writes of the `runJob` dispatch callback when it fires:
it is guarded by `!isDisposed.current && termRef.current`; when mounted
it writes `'\r\n'`, then each `taskListStr` entry via `writeln`, else
the (truthy, i.e. non-empty) `errorData` via `writeln`, then the prompt,
then focuses the terminal. -/
def runJobCallback (disposed : Bool) (res : JobResult) : List Out :=
  if disposed then []
  else
    Out.write "\r\n" ::
      ((match res.taskListStr with
        | some ls => ls.map Out.writeln
        | none =>
            match res.errorData with
            | some e => if e = "" then [] else [Out.writeln e]
            | none => []) ++ [Out.prompt, Out.focus])

/-- The liveness flag `isDisposed.current` of a component instance. -/
structure Lifecycle where
  isDisposed : Bool

/-- The useEffect cleanup function: it sets `isDisposed.current = true`
(and disposes the terminal). -/
def unmountCleanup (_l : Lifecycle) : Lifecycle :=
  { isDisposed := true }

/-- The asynchronous response shape consumed by the mount-time
`task/queryTask` callback: `res.data.taskList`. -/
structure QueryResult where
  taskList : Option (List String)
deriving DecidableEq

/-- The display writes of the mount-time query callback when it fires:
guarded by `!isDisposed.current && termRef.current`; when mounted it
writes each `taskList` entry via `writeln`, then the prompt. -/
def queryCallback (disposed : Bool) (res : QueryResult) : List Out :=
  if disposed then []
  else
    (match res.taskList with
     | some ls => ls.map Out.writeln
     | none => []) ++ [Out.prompt]

/-- The synchronous mount effect: the action type dispatched before any
user input (`'task/queryTask'` when a dispatcher is configured and the
component is not yet initialized), and the unconditional prompt write
at the end of the effect. -/
structure MountResult where
  outs : List Out
  dispatchedType : Option String

/-- Embedding of the initialization part of the useEffect body. -/
def initMount (hasDispatch : Bool) (isInitialized : Bool) : MountResult :=
  { outs := [Out.prompt],
    dispatchedType :=
      if ¬isInitialized ∧ hasDispatch then some "task/queryTask" else none }

/-- Number of prompt renders in a write trace. -/
def promptCount (outs : List Out) : Nat :=
  (outs.filter (fun o => o == Out.prompt)).length

/-- The key events that type and submit one command. -/
def submitKeys (cmd : String) : List Key :=
  [Key.other cmd, Key.enter]

/-- State of a fresh (dispatcher-less) component after submitting
`"a"`, `"b"`, `"c"` in order. -/
def c1Start : ShellState :=
  runKeys false initState (submitKeys "a" ++ submitKeys "b" ++ submitKeys "c")

/-- C1 counterexample: on a fresh component with history `["a","b","c"]`
and three Ups pressed (display shows `"a"`), the first Down re-displays
`"a"`, not `"b"`: the Down branch increments `lastCommandIndex` first
and then recalls `history[(lastCommandIndex - 1) % length]`, i.e. the
entry the cursor was already on. -/
theorem history_roundtrip_cex :
    (step false (runKeys false c1Start [Key.up, Key.up, Key.up]) Key.down).state.displayLine
      ≠ "b" := by decide

/-- C1 (amended): after submitting `"a"`, `"b"`, `"c"`, three Ups
display `"c"`, `"b"`, `"a"`; a fourth Up changes nothing (state
identical, no output); then three Downs display `"a"`, `"b"`, `"c"`,
and after the third Down the input buffer is empty (with the cursor
index back at the history length) although the display still shows
`"c"`. -/
theorem history_roundtrip_actual :
    (runKeys false c1Start [Key.up]).displayLine = "c" ∧
    (runKeys false c1Start [Key.up, Key.up]).displayLine = "b" ∧
    (runKeys false c1Start [Key.up, Key.up, Key.up]).displayLine = "a" ∧
    step false (runKeys false c1Start [Key.up, Key.up, Key.up]) Key.up =
      { state := runKeys false c1Start [Key.up, Key.up, Key.up],
        outs := [], dispatched := none } ∧
    (runKeys false c1Start [Key.up, Key.up, Key.up, Key.up, Key.down]).displayLine = "a" ∧
    (runKeys false c1Start
        [Key.up, Key.up, Key.up, Key.up, Key.down, Key.down]).displayLine = "b" ∧
    (runKeys false c1Start
        [Key.up, Key.up, Key.up, Key.up, Key.down, Key.down, Key.down]).displayLine = "c" ∧
    (runKeys false c1Start
        [Key.up, Key.up, Key.up, Key.up, Key.down, Key.down, Key.down]).currentLineData = "" ∧
    (runKeys false c1Start
        [Key.up, Key.up, Key.up, Key.up, Key.down, Key.down, Key.down]).lastCommandIndex = 3 := by
  decide

/-- C2 counterexample: submit `"a"`, press Up (display `"a"`), then
Down. The cursor reaches the history length and the input buffer is
reset to empty, but the display still shows `"a"` (the write of the
recalled entry happens before the buffer reset), so the displayed line
does not equal the resulting input buffer. -/
theorem down_display_cex :
    (step false (runKeys false initState (submitKeys "a" ++ [Key.up]))
        Key.down).state.lastCommandIndex =
      (step false (runKeys false initState (submitKeys "a" ++ [Key.up]))
        Key.down).state.historyLineData.length ∧
    (step false (runKeys false initState (submitKeys "a" ++ [Key.up]))
        Key.down).state.currentLineData = "" ∧
    (step false (runKeys false initState (submitKeys "a" ++ [Key.up]))
        Key.down).state.displayLine ≠ "" := by decide

/-- C2 (amended): from any state with `lastCommandIndex` below the
history length, a Down event erases the current line, increments the
cursor, sets the input buffer to
`history[(lastCommandIndex + 1 - 1) % length]` and writes that string to
the display; afterwards, when the incremented cursor equals the history
length, the input buffer is reset to empty while the display keeps
showing the written string (so at that boundary the displayed line is
the recalled entry, not the empty buffer). -/
theorem down_step_spec (hd : Bool) (s : ShellState)
    (h : s.lastCommandIndex < s.historyLineData.length) :
    (step hd s Key.down).outs =
      [Out.clearLine,
       Out.write (s.historyLineData.getD
         (s.lastCommandIndex % s.historyLineData.length) "")] ∧
    (step hd s Key.down).state.lastCommandIndex = s.lastCommandIndex + 1 ∧
    (step hd s Key.down).state.displayLine =
      s.historyLineData.getD (s.lastCommandIndex % s.historyLineData.length) "" ∧
    (step hd s Key.down).state.currentLineData =
      (if s.lastCommandIndex + 1 = s.historyLineData.length then ""
       else s.historyLineData.getD (s.lastCommandIndex % s.historyLineData.length) "") ∧
    (step hd s Key.down).state.historyLineData = s.historyLineData ∧
    (step hd s Key.down).dispatched = none := by
  have h0 : 0 < s.historyLineData.length := Nat.lt_of_le_of_lt (Nat.zero_le _) h
  simp [step, h, h0]

/-- Witness for C2 (amended) at the reachable state with history
`["a"]`, cursor 0, line `"a"`. -/
theorem down_step_spec_witness :
    (step false { historyLineData := ["a"], currentLineData := "a",
                  lastCommandIndex := 0, displayLine := "a" } Key.down).outs =
      [Out.clearLine, Out.write "a"] ∧
    (step false { historyLineData := ["a"], currentLineData := "a",
                  lastCommandIndex := 0, displayLine := "a" } Key.down).state.lastCommandIndex = 1 ∧
    (step false { historyLineData := ["a"], currentLineData := "a",
                  lastCommandIndex := 0, displayLine := "a" } Key.down).state.displayLine = "a" ∧
    (step false { historyLineData := ["a"], currentLineData := "a",
                  lastCommandIndex := 0, displayLine := "a" } Key.down).state.currentLineData = "" ∧
    (step false { historyLineData := ["a"], currentLineData := "a",
                  lastCommandIndex := 0, displayLine := "a" } Key.down).state.historyLineData = ["a"] ∧
    (step false { historyLineData := ["a"], currentLineData := "a",
                  lastCommandIndex := 0, displayLine := "a" } Key.down).dispatched = none :=
  down_step_spec false
    { historyLineData := ["a"], currentLineData := "a",
      lastCommandIndex := 0, displayLine := "a" } (by decide)

/-- C3: on every Enter event the buffer is trimmed; a non-empty trimmed
command is appended to the history and the cursor is set to the new
history length; the screen-clear output is emitted exactly when the
trimmed command is `"clear"` (which, being non-empty, is still
appended); the trimmed command is handed to the external dispatcher
exactly per the dispatch contract (when a dispatcher is configured and
the command is non-empty); and the input buffer is reset to empty. -/
theorem enter_step_spec (hd : Bool) (s : ShellState) :
    (step hd s Key.enter).state.historyLineData =
      (if jsTrim s.currentLineData = "" then s.historyLineData
       else s.historyLineData ++ [jsTrim s.currentLineData]) ∧
    (jsTrim s.currentLineData ≠ "" →
      (step hd s Key.enter).state.lastCommandIndex =
        (step hd s Key.enter).state.historyLineData.length) ∧
    (Out.clearScreen ∈ (step hd s Key.enter).outs ↔
      jsTrim s.currentLineData = "clear") ∧
    (step hd s Key.enter).dispatched =
      (if hd ∧ jsTrim s.currentLineData ≠ "" then some (jsTrim s.currentLineData)
       else none) ∧
    (step hd s Key.enter).state.currentLineData = "" := by
  by_cases h1 : jsTrim s.currentLineData = ""
  · have h2 : jsTrim s.currentLineData ≠ "clear" := by
      rw [h1]; decide
    simp [step, h1, h2]
  · by_cases h3 : jsTrim s.currentLineData = "clear"
    · cases hd <;> simp [step, h1, h3]
    · cases hd <;> simp [step, h1, h3]

/-- Witness for C3 at a state whose line trims to `"clear"` with a
dispatcher configured. -/
theorem enter_step_spec_witness :
    (step true { historyLineData := ["x"], currentLineData := " clear ",
                 lastCommandIndex := 1, displayLine := " clear " } Key.enter).state.historyLineData
      = ["x", "clear"] ∧
    ("clear" ≠ "" →
      (step true { historyLineData := ["x"], currentLineData := " clear ",
                   lastCommandIndex := 1, displayLine := " clear " } Key.enter).state.lastCommandIndex = 2) ∧
    (Out.clearScreen ∈
        (step true { historyLineData := ["x"], currentLineData := " clear ",
                     lastCommandIndex := 1, displayLine := " clear " } Key.enter).outs ↔
      True) ∧
    (step true { historyLineData := ["x"], currentLineData := " clear ",
                 lastCommandIndex := 1, displayLine := " clear " } Key.enter).dispatched
      = some "clear" ∧
    (step true { historyLineData := ["x"], currentLineData := " clear ",
                 lastCommandIndex := 1, displayLine := " clear " } Key.enter).state.currentLineData
      = "" := by
  have h := enter_step_spec true
    { historyLineData := ["x"], currentLineData := " clear ",
      lastCommandIndex := 1, displayLine := " clear " }
  refine ⟨h.1.trans (by decide), fun hne => (h.2.1 (by decide)).trans (by decide),
    ⟨fun _ => trivial, fun _ => h.2.2.1.mpr (by decide)⟩, h.2.2.2.1.trans (by decide),
    h.2.2.2.2⟩

/-- C6: when the display cursor column equals the prompt length, a
Backspace event is a no-op (state and display untouched, no output —
it cannot erase into the prompt); when the column is greater, it
removes the last character of the input buffer (`slice(0, -1)`), erases
one visual cell, and emits exactly one destructive backspace sequence
`'\b \b'`, touching neither history nor cursor index. -/
theorem backspace_step_spec (hd : Bool) (s : ShellState) :
    (s.cursorX = promptLength →
      step hd s Key.backspace = { state := s, outs := [], dispatched := none }) ∧
    (promptLength < s.cursorX →
      (step hd s Key.backspace).state.currentLineData = popLast s.currentLineData ∧
      (step hd s Key.backspace).state.displayLine = popLast s.displayLine ∧
      (step hd s Key.backspace).outs = [Out.write "\x08 \x08"] ∧
      (step hd s Key.backspace).state.historyLineData = s.historyLineData ∧
      (step hd s Key.backspace).state.lastCommandIndex = s.lastCommandIndex) := by
  constructor
  · intro h
    have h2 : ¬ promptLength < s.cursorX := by omega
    simp [step, h2]
  · intro h
    simp [step, h]

/-- Witness for C6: Backspace on the fresh state (column at the prompt)
is a no-op; Backspace with `"ab"` typed leaves `"a"`. -/
theorem backspace_step_spec_witness :
    step false initState Key.backspace =
      { state := initState, outs := [], dispatched := none } ∧
    (step false { historyLineData := [], currentLineData := "ab",
                  lastCommandIndex := 0, displayLine := "ab" } Key.backspace).state.currentLineData
      = "a" :=
  ⟨(backspace_step_spec false initState).1 (by decide),
   ((backspace_step_spec false
      { historyLineData := [], currentLineData := "ab",
        lastCommandIndex := 0, displayLine := "ab" }).2 (by decide)).1.trans (by decide)⟩

/-- C7: an Enter event whose trimmed line is empty leaves the history
and the cursor index unchanged, hands nothing to the external
dispatcher, and its only display output is the prompt re-render. -/
theorem empty_enter_spec (hd : Bool) (s : ShellState)
    (h : jsTrim s.currentLineData = "") :
    (step hd s Key.enter).state.historyLineData = s.historyLineData ∧
    (step hd s Key.enter).state.lastCommandIndex = s.lastCommandIndex ∧
    (step hd s Key.enter).dispatched = none ∧
    (step hd s Key.enter).outs = [Out.prompt] := by
  have h2 : jsTrim s.currentLineData ≠ "clear" := by rw [h]; decide
  simp [step, h, h2]

/-- Witness for C7 at a whitespace-only line with a dispatcher
configured. -/
theorem empty_enter_spec_witness :
    (step true { historyLineData := ["x"], currentLineData := " ",
                 lastCommandIndex := 1, displayLine := " " } Key.enter).state.historyLineData
      = ["x"] ∧
    (step true { historyLineData := ["x"], currentLineData := " ",
                 lastCommandIndex := 1, displayLine := " " } Key.enter).state.lastCommandIndex
      = 1 ∧
    (step true { historyLineData := ["x"], currentLineData := " ",
                 lastCommandIndex := 1, displayLine := " " } Key.enter).dispatched = none ∧
    (step true { historyLineData := ["x"], currentLineData := " ",
                 lastCommandIndex := 1, displayLine := " " } Key.enter).outs = [Out.prompt] :=
  empty_enter_spec true
    { historyLineData := ["x"], currentLineData := " ",
      lastCommandIndex := 1, displayLine := " " } (by decide)

/-- The history-cursor bound of the spec: `0 ≤ lastCommandIndex` is
automatic for a natural number, so the content is the upper bound. -/
def historyInvariant (s : ShellState) : Prop :=
  s.lastCommandIndex ≤ s.historyLineData.length

/-- C8: `0 ≤ HistoryCursor ≤ length(HistoryLog)` holds on the fresh
state and is preserved by every input event: Up decrements only when the
cursor is positive, Down increments only when the cursor is below the
length, and a non-empty Enter sets the cursor to the new length. -/
theorem cursor_bound_spec :
    historyInvariant initState ∧
    ∀ (hd : Bool) (s : ShellState) (k : Key),
      historyInvariant s → historyInvariant (step hd s k).state := by
  constructor
  · exact Nat.le_refl 0
  · intro hd s k h
    simp only [historyInvariant] at h ⊢
    cases k with
    | enter =>
        by_cases h1 : jsTrim s.currentLineData = ""
        · have h2 : ¬(hd = true ∧ jsTrim s.currentLineData ≠ "") := by simp [h1]
          simpa [step, h1, h2] using h
        · cases hd <;> simp [step, h1]
    | backspace =>
        by_cases h1 : promptLength < s.cursorX <;> simpa [step, h1] using h
    | up =>
        by_cases h1 : 0 < s.historyLineData.length ∧ 0 < s.lastCommandIndex
        · simp [step, h1]
          omega
        · simpa [step, h1] using h
    | down =>
        by_cases h1 : 0 < s.historyLineData.length ∧
            s.lastCommandIndex < s.historyLineData.length
        · simp [step, h1]
          omega
        · simpa [step, h1] using h
    | other k => simpa [step] using h

/-- Witness for C8: preservation applied at the fresh state and an
Enter event, starting from the invariant on the fresh state. -/
theorem cursor_bound_spec_witness :
    historyInvariant (step false initState Key.enter).state :=
  cursor_bound_spec.2 false initState Key.enter cursor_bound_spec.1

/-- Typing characters through the default onData branch appends each
one to both the input buffer and the displayed line, from any starting
state. -/
theorem runKeys_other_append (hd : Bool) (cs : List Char) :
    ∀ s : ShellState,
      (runKeys hd s (cs.map (fun c => Key.other c.toString))).currentLineData =
        cs.foldl (fun a c => a ++ c.toString) s.currentLineData ∧
      (runKeys hd s (cs.map (fun c => Key.other c.toString))).displayLine =
        cs.foldl (fun a c => a ++ c.toString) s.displayLine := by
  induction cs with
  | nil => intro s; exact ⟨rfl, rfl⟩
  | cons c cs ih => intro s; exact ih _

/-- C9: after any sequence of printable-character events on a fresh
component (no Enter, Backspace or arrow key), the input buffer equals
the concatenation of the characters typed in order, and the text
rendered after the prompt equals the input buffer. -/
theorem printable_sequence_spec (hd : Bool) (cs : List Char) :
    (runKeys hd initState (cs.map (fun c => Key.other c.toString))).currentLineData =
      cs.foldl (fun a c => a ++ c.toString) "" ∧
    (runKeys hd initState (cs.map (fun c => Key.other c.toString))).displayLine =
      (runKeys hd initState (cs.map (fun c => Key.other c.toString))).currentLineData := by
  have h := runKeys_other_append hd cs initState
  exact ⟨h.1, h.2.trans h.1.symm⟩

/-- C4: when the dispatch callback of a non-empty command fires on a
still-mounted component, the display receives, in order: one line
break; then each entry of the returned lines array as its own line
(when a lines array is returned), or the returned (non-empty) error
text as a line; then the prompt; and the terminal is focused. -/
theorem dispatch_callback_spec (ls : List String) (e : String) :
    runJobCallback false { taskListStr := some ls, errorData := none } =
      Out.write "\r\n" :: (ls.map Out.writeln ++ [Out.prompt, Out.focus]) ∧
    (e ≠ "" →
      runJobCallback false { taskListStr := none, errorData := some e } =
        [Out.write "\r\n", Out.writeln e, Out.prompt, Out.focus]) := by
  refine ⟨rfl, fun h => ?_⟩
  simp [runJobCallback, h]

/-- Witness for C4 at the spec's two scenarios: lines
`["task1", "task2"]` and error text `"not found"`. -/
theorem dispatch_callback_spec_witness :
    runJobCallback false { taskListStr := some ["task1", "task2"], errorData := none } =
      [Out.write "\r\n", Out.writeln "task1", Out.writeln "task2",
       Out.prompt, Out.focus] ∧
    runJobCallback false { taskListStr := none, errorData := some "not found" } =
      [Out.write "\r\n", Out.writeln "not found", Out.prompt, Out.focus] :=
  ⟨(dispatch_callback_spec ["task1", "task2"] "x").1,
   (dispatch_callback_spec [] "not found").2 (by decide)⟩

/-- C5: after the unmount cleanup has run (it sets the disposed flag),
a late-firing dispatch callback — of `runJob` or of the mount-time
query — writes nothing to the display: every post-callback write sits
behind the still-mounted guard. The callbacks are total functions, so
no failure is possible either. -/
theorem unmount_no_writes (l : Lifecycle) (res : JobResult) (q : QueryResult) :
    runJobCallback (unmountCleanup l).isDisposed res = [] ∧
    queryCallback (unmountCleanup l).isDisposed q = [] :=
  ⟨rfl, rfl⟩

/-- Mapping `writeln` over strings contributes no prompt renders. -/
theorem promptCount_map_writeln (ls : List String) (rest : List Out) :
    promptCount (ls.map Out.writeln ++ rest) = promptCount rest := by
  induction ls with
  | nil => rfl
  | cons a ls ih => exact ih

/-- C10: on mount with a dispatcher configured and the component not
yet initialized, and before any user input, the effect dispatches the
`'task/queryTask'` action; its callback, firing while still mounted,
writes each returned task as its own line and then a prompt render — on
top of the prompt rendered unconditionally by the mount effect, for two
prompt renders in total. -/
theorem mount_query_spec (ls : List String) :
    (initMount true false).dispatchedType = some "task/queryTask" ∧
    queryCallback false { taskList := some ls } = ls.map Out.writeln ++ [Out.prompt] ∧
    promptCount ((initMount true false).outs ++
      queryCallback false { taskList := some ls }) = 2 := by
  refine ⟨rfl, rfl, ?_⟩
  calc promptCount ((initMount true false).outs ++
        queryCallback false { taskList := some ls })
      = promptCount (ls.map Out.writeln ++ [Out.prompt]) + 1 := rfl
    _ = promptCount [Out.prompt] + 1 := by
          rw [promptCount_map_writeln ls [Out.prompt]]
    _ = 2 := rfl

end ReactXterm
